import Mathlib

/-
Verification of the chess-vs-LLM repository core: the move-negotiation and
game-state-reconciliation protocol.

The embedding below translates the non-presentational logic of the sources:
  - src/lib/chess-ai.ts          : generateMove (prompt composition, response
                                   validation, fallback selection) and the
                                   ChessGame orchestrator (startGame,
                                   checkGameStatus, handleMove, timer effect)
  - src/components/game-timer.tsx: ChessBoard.onDrop (human move gate)
  - src/app/types/game.ts        : GameState and ChessMove data model

The external chess rules engine (chess.js) is out of scope for the repository
and is modelled at its interface boundary: an abstract function from a FEN
string to the engine's query results (legal moves, status flags, side to move,
king square, and the FEN that results from applying a move).  The external
text-completion service is modelled by an oracle value: either a parsed,
schema-valid response or a failure carrying an error message. Randomness
(Math.random for the fallback selector) is modelled by a natural number seed.
-/

set_option maxRecDepth 100000

namespace ChessLLM

/-- Side to move as reported by chess.js turn(): "w" or "b". -/
inductive Color
| w
| b
deriving DecidableEq, Repr

/-- Opposite side. -/
def otherColor : Color → Color
| Color.w => Color.b
| Color.b => Color.w

/-- Verbose legal-move descriptor as produced by chess.moves with verbose
true: from/to squares, optional promotion piece, moving piece kind, optional
captured piece kind, and SAN notation. -/
structure Move where
  «from» : String
  «to» : String
  promotion : Option String
  piece : String
  captured : Option String
  san : String
deriving DecidableEq, Repr

/-- History entry appended per applied half-move (src/app/types/game.ts
ChessMove). The player field holds the literal tag "You" or "AI" as in the
source. -/
structure ChessMove where
  san : String
  player : String
  fen : String
  piece : String
  «from» : String
  «to» : String
  captured : Option String
  check : Bool
  checkmate : Bool
  reasoning : Option String
deriving DecidableEq, Repr

/-- JS String.prototype.includes: substring test, over the underlying
character lists. -/
def strIncludes (s sub : String) : Bool :=
  (List.range (s.data.length + 1)).any
    (fun i => sub.data.isPrefixOf (s.data.drop i))

/-- Candidate move from the parsed model response (zod moveResponseSchema,
field move: from/to and optional promotion). -/
structure Candidate where
  «from» : String
  «to» : String
  promotion : Option String
deriving DecidableEq, Repr

/-- Parsed model response: candidate move plus reasoning string. -/
structure ParsedResponse where
  move : Candidate
  reasoning : String
deriving DecidableEq, Repr

/-- Outcome of the external completion call combined with JSON.parse and zod
validation: either a schema-valid parsed response, or a failure (transport
error, authentication error, SyntaxError, ZodError) carrying the thrown
error's message. -/
inductive ModelResult
| response (p : ParsedResponse)
| failure (msg : String)
deriving DecidableEq, Repr

/-- The chess.js move-object matcher: a legal move matches a candidate when
from and to agree and, if the legal move is a promotion, the candidate names
the same promotion piece (a promotion field on a non-promotion move is
ignored by chess.js). -/
def matchesCand (m : Move) (c : Candidate) : Bool :=
  m.«from» == c.«from» && m.«to» == c.«to» &&
    (match m.promotion with
     | none => true
     | some p => c.promotion == some p)

/-- chess.move on a move object: the first legal move matching the candidate,
or none when chess.js would throw an invalid-move error. -/
def chessJsMove (legal : List Move) (c : Candidate) : Option Move :=
  legal.find? (fun m => matchesCand m c)

/-- Abstract chess.js instance, modelled at the interface boundary: the FEN it
was loaded from, side to move, the status predicates used by the sources, the
king square a board scan (findKingSquare) would report for a color, the
verbose legal-move list, and the FEN serialized after applying a legal move. -/
structure ChessPos where
  fen : String
  turn : Color
  isCheck : Bool
  isCheckmate : Bool
  isStalemate : Bool
  isInsufficientMaterial : Bool
  isThreefoldRepetition : Bool
  isDraw : Bool
  kingSquare : Color → Option String
  legalMoves : List Move
  fenAfter : Move → String

/-- JS array.slice applied with a negative index: the trailing window of at
most n elements (moveHistory.slice(-7) in generateMove). -/
def lastN (n : Nat) (l : List α) : List α := l.drop (l.length - n)

/-- Opponent-tendency commentary interpolated into the prompt
(src/lib/chess-ai.ts lines 82-102): a nested conditional over piece-kind
counts of the human's moves in the recent window, thresholds of two, priority
pawn, then knight, then bishop, then generic piece development; fewer than two
human moves yields the aggressive label, a window shorter than two the
early-game label. -/
def tendencyLine (recentMoves : List ChessMove) : String :=
  if 2 ≤ recentMoves.length then
    "The human player tends to " ++
      (if 2 ≤ (recentMoves.filter (fun m => m.player == "You")).length then
        "favor " ++
          (if 2 ≤ (recentMoves.filter
              (fun m => m.player == "You" && m.piece == "p")).length then
            "pawn moves"
          else if 2 ≤ (recentMoves.filter
              (fun m => m.player == "You" && m.piece == "n")).length then
            "knight development"
          else if 2 ≤ (recentMoves.filter
              (fun m => m.player == "You" && m.piece == "b")).length then
            "bishop development"
          else "piece development")
      else "play aggressively")
  else "This is early in the game"

/-- Count of moves in the window made by the human with the given piece kind
(the filter expression of the tendency commentary). -/
def youPieceCount (r : List ChessMove) (k : String) : Nat :=
  (r.filter (fun m => m.player == "You" && m.piece == k)).length

/-- Count of moves in the window made by the human. -/
def youCount (r : List ChessMove) : Nat :=
  (r.filter (fun m => m.player == "You")).length

/-- Capture commentary interpolated into the prompt (lines 103-109). -/
def captureLine (recentMoves : List ChessMove) : String :=
  let n := (recentMoves.filter (fun m => m.captured.isSome)).length
  if 0 < n then "There have been " ++ toString n ++ " captures so far"
  else "No pieces have been captured yet"

/-- One line of the rendered history summary (lines 51-61): move number
derived by integer division, mover identity, SAN, and parenthesized reasoning
when present. -/
def histLine (historyLen recentLen index : Nat) (move : ChessMove) : String :=
  toString (index / 2 + (historyLen - recentLen) / 2 + 1) ++ ". " ++
    (if move.player == "You" then "Human" else "AI") ++ ": " ++ move.san ++
    (match move.reasoning with
     | some r => " (" ++ r ++ ")"
     | none => "")

/-- Rendered history summary over the trailing window. -/
def formattedHistory (moveHistory : List ChessMove) : String :=
  let recentMoves := lastN 7 moveHistory
  String.intercalate "\n"
    (recentMoves.mapIdx (fun i m =>
      histLine moveHistory.length recentMoves.length i m))

/-- Legal move rendered into the prompt's move vocabulary (lines 38-45). -/
structure FormattedMove where
  «from» : String
  «to» : String
  promotion : Option String
  piece : String
  captured : Option String
  san : String
deriving DecidableEq, Repr

/-- The composed completion request (lines 72-159), decomposed into the
interpolated components: position FEN, trailing history window and its
rendering, tendency and capture commentary, the urgency flags, and the
enumerated legal-move vocabulary. -/
structure PromptData where
  fen : String
  recentMoves : List ChessMove
  history : String
  tendency : String
  captures : String
  hasHistory : Bool
  inCheck : Bool
  checkmatePossible : Bool
  formattedMoves : List FormattedMove
deriving DecidableEq, Repr

/-- Prompt composition in generateMove before the completion call. -/
def composePrompt (fen : String) (moveHistory : List ChessMove)
    (chess : ChessPos) : PromptData :=
  let legalMoves := chess.legalMoves
  let recentMoves := lastN 7 moveHistory
  { fen := fen
    recentMoves := recentMoves
    history := formattedHistory moveHistory
    tendency := tendencyLine recentMoves
    captures := captureLine recentMoves
    hasHistory := 0 < recentMoves.length
    inCheck := chess.isCheck
    checkmatePossible := legalMoves.any (fun m => strIncludes m.san "#")
    formattedMoves := legalMoves.map (fun m =>
      ⟨m.«from», m.«to», m.promotion, m.piece, m.captured, m.san⟩) }

/-- Successful return value of generateMove: new FEN, applied move, and the
reasoning string. -/
structure GenResult where
  fen : String
  move : Move
  reasoning : String
deriving DecidableEq, Repr

/-- A full run of generateMove: the completion request that was sent, if the
control flow reached the completion call, and the returned value or thrown
error message. -/
structure GenRun where
  request : Option PromptData
  result : Except String GenResult

instance : DecidableEq (Except String GenResult) := fun a b =>
  match a, b with
  | Except.ok x, Except.ok y =>
    if h : x = y then isTrue (by rw [h]) else isFalse (by simp [h])
  | Except.error x, Except.error y =>
    if h : x = y then isTrue (by rw [h]) else isFalse (by simp [h])
  | Except.ok _, Except.error _ => isFalse (by simp)
  | Except.error _, Except.ok _ => isFalse (by simp)

/-- Keyword test applied to a caught error's message to classify it as an
authentication-class failure (lines 187-194 and 481-488). -/
def isAuthError (msg : String) : Bool :=
  strIncludes msg "API key" || strIncludes msg "authentication" ||
    strIncludes msg "auth" || strIncludes msg "401" || strIncludes msg "403"

/-- The error message rethrown by generateMove on an authentication-class
failure. -/
def authKeyMsg : String :=
  "Invalid or expired OpenAI API key. Please update your API key."

/-- Error message chess.js throws for an illegal move object, JSON.stringify
of the candidate included. -/
def invalidMoveMsg (c : Candidate) : String :=
  "Invalid move: \x7b\"from\":\"" ++ c.«from» ++ "\",\"to\":\"" ++ c.«to» ++
    "\"" ++
    (match c.promotion with
     | some p => ",\"promotion\":\"" ++ p ++ "\""
     | none => "") ++ "\x7d"

/-- Catch block of generateMove (lines 183-218): rethrow the distinguished
API-key error when the message matches the authentication keywords, otherwise
select a uniformly random legal move as the fallback; with no legal move left
the final throw fires. -/
def fallbackOrThrow (chess : ChessPos) (prompt : PromptData) (msg : String)
    (rand : Nat) : GenRun :=
  if isAuthError msg then ⟨some prompt, Except.error authKeyMsg⟩
  else
    match chess.legalMoves.get? (rand % chess.legalMoves.length) with
    | some randomMove =>
      ⟨some prompt, Except.ok
        ⟨chess.fenAfter randomMove, randomMove,
          "Random move (AI generation failed)"⟩⟩
    | none => ⟨some prompt, Except.error "Failed to generate a move"⟩

/-- generateMove (src/lib/chess-ai.ts lines 16-219). The rules argument
models constructing a chess.js instance from the FEN; the oracle models the
awaited completion call together with JSON.parse and zod validation; rand
models Math.random scaled over the legal-move list. -/
def generateMove (rules : String → ChessPos) (fen : String)
    (moveHistory : List ChessMove) (apiKey : String) (modelName : String)
    (oracle : ModelResult) (rand : Nat) : GenRun :=
  if apiKey = "" then ⟨none, Except.error "OpenAI API key is required"⟩
  else if (rules fen).legalMoves = [] then
    ⟨none, Except.error "No legal moves available"⟩
  else
    match oracle with
    | ModelResult.response p =>
      match chessJsMove (rules fen).legalMoves p.move with
      | some result =>
        ⟨some (composePrompt fen moveHistory (rules fen)),
          Except.ok ⟨(rules fen).fenAfter result, result, p.reasoning⟩⟩
      | none =>
        fallbackOrThrow (rules fen) (composePrompt fen moveHistory (rules fen))
          (invalidMoveMsg p.move) rand
    | ModelResult.failure msg =>
      fallbackOrThrow (rules fen) (composePrompt fen moveHistory (rules fen))
        msg rand

/-- Game status (src/app/types/game.ts). -/
inductive GameStatus
| waiting
| playing
| ended
deriving DecidableEq, Repr

/-- Game result value when not null. -/
inductive GameResultV
| player
| ai
| draw
deriving DecidableEq, Repr

/-- Result reason value when not null. -/
inductive ResultReason
| checkmate
| stalemate
| time
| resignation
| insufficient
| repetition
| fiftyMove
deriving DecidableEq, Repr

/-- Authoritative game state owned by the ChessGame orchestrator. -/
structure GameState where
  fen : String
  isPlayerTurn : Bool
  gameStatus : GameStatus
  result : Option GameResultV
  resultReason : Option ResultReason
  inCheck : Bool
  checkSquare : Option String
deriving DecidableEq, Repr

/-- Return value of checkGameStatus: a JS Partial of GameState. The
gameStatus, inCheck and checkSquare keys are always present; result and
resultReason are present, as a pair, exactly in the terminal branches and
absent otherwise, so that a spread merge keeps the previous values. -/
structure StatusPartial where
  gameStatus : GameStatus
  resFields : Option (GameResultV × ResultReason)
  inCheck : Bool
  checkSquare : Option String
deriving DecidableEq, Repr

/-- checkGameStatus (lines 307-378): the cascade of terminal checks, then the
check test, then the quiet default.  The winner on checkmate is taken from
the side to move in the mated position: white to move means the AI won. -/
def checkGameStatus (chess : ChessPos) : StatusPartial :=
  if chess.isCheckmate then
    ⟨GameStatus.ended,
      some (if chess.turn = Color.w then GameResultV.ai else GameResultV.player,
        ResultReason.checkmate),
      true, chess.kingSquare chess.turn⟩
  else if chess.isStalemate then
    ⟨GameStatus.ended, some (GameResultV.draw, ResultReason.stalemate),
      false, none⟩
  else if chess.isInsufficientMaterial then
    ⟨GameStatus.ended, some (GameResultV.draw, ResultReason.insufficient),
      false, none⟩
  else if chess.isThreefoldRepetition then
    ⟨GameStatus.ended, some (GameResultV.draw, ResultReason.repetition),
      false, none⟩
  else if chess.isDraw then
    ⟨GameStatus.ended, some (GameResultV.draw, ResultReason.fiftyMove),
      false, none⟩
  else if chess.isCheck then
    ⟨GameStatus.playing, none, true, chess.kingSquare chess.turn⟩
  else
    ⟨GameStatus.playing, none, false, none⟩

/-- JS spread merge of a checkGameStatus partial over a previous state. -/
def mergeStatus (gs : GameState) (p : StatusPartial) : GameState :=
  { gs with
    gameStatus := p.gameStatus
    inCheck := p.inCheck
    checkSquare := p.checkSquare
    result := match p.resFields with
      | some rf => some rf.1
      | none => gs.result
    resultReason := match p.resFields with
      | some rf => some rf.2
      | none => gs.resultReason }

/-- In this application the human always plays White and the model Black
(startGame loads the standard starting position with the human to move), so
the engine color maps to a result label as follows. -/
def sideLabel : Color → GameResultV
| Color.w => GameResultV.player
| Color.b => GameResultV.ai

/-- The standard starting position FEN used by startGame. -/
def startFen : String :=
  "rnbqkbnr/pppppppp/8/8/8/8/PPPPPPPP/RNBQKBNR w KQkq - 0 1"

/-- Record of an in-flight generateMove call: the arguments the orchestrator
passed (position FEN and move-history list). -/
structure PendingReq where
  fen : String
  history : List ChessMove
deriving DecidableEq, Repr

/-- Full component state of the ChessGame orchestrator: game state, the two
clock counters (seconds), the thinking flag, the move history, the credential
and model selection, the API-key modal flag, and the in-flight completion
request when one is outstanding. -/
structure AppState where
  gameState : GameState
  playerTime : Int
  aiTime : Int
  isThinking : Bool
  moveHistory : List ChessMove
  apiKey : String
  modelName : String
  isApiKeyModalOpen : Bool
  pending : Option PendingReq
deriving DecidableEq, Repr

/-- Initial component state (useState initializers). -/
def initialState (apiKey modelName : String) : AppState :=
  ⟨⟨startFen, true, GameStatus.waiting, none, none, false, none⟩,
    600, 600, false, [], apiKey, modelName, false, none⟩

/-- startGame (lines 277-297): with no API key only open the modal; otherwise
reset position, state, clocks and history. -/
def startGame (st : AppState) : AppState :=
  if st.apiKey = "" then { st with isApiKeyModalOpen := true }
  else
    { st with
      gameState := ⟨startFen, true, GameStatus.playing, none, none, false, none⟩
      playerTime := 600
      aiTime := 600
      moveHistory := [] }

/-- History entry appended for the human's move (lines 411-424). -/
def humanEntry (newFen : String) (mv : Move) : ChessMove :=
  ⟨mv.san, "You", newFen, mv.piece, mv.«from», mv.«to», mv.captured,
    strIncludes mv.san "+", strIncludes mv.san "#", none⟩

/-- History entry appended for the model's move (lines 458-472). -/
def aiEntry (aiMove : GenResult) : ChessMove :=
  ⟨aiMove.move.san, "AI", aiMove.fen, aiMove.move.piece, aiMove.move.«from»,
    aiMove.move.«to», aiMove.move.captured, strIncludes aiMove.move.san "+",
    strIncludes aiMove.move.san "#", some aiMove.reasoning⟩

/-- Synchronous part of handleMove (lines 395-440): reload the engine from
the new FEN, evaluate status, merge the player-move update, append the human
history entry; when the game has not ended, mark thinking and record the
generateMove call, whose history argument is the pre-append moveHistory value
captured by the handler's closure. -/
def handleMovePhase1 (rules : String → ChessPos) (st : AppState)
    (newFen : String) (mv : Move) : AppState :=
  let part := checkGameStatus (rules newFen)
  let gs1 := mergeStatus { st.gameState with fen := newFen, isPlayerTurn := false } part
  let hist1 := st.moveHistory ++ [humanEntry newFen mv]
  if part.gameStatus = GameStatus.ended then
    { st with gameState := gs1, moveHistory := hist1 }
  else
    { st with
      gameState := gs1
      moveHistory := hist1
      isThinking := true
      pending := some ⟨newFen, st.moveHistory⟩ }

/-- ChessBoard.onDrop (game-timer/chess-board source, lines 131-157): refuse
when it is not the human's turn (the parent passes isPlayerTurn only while
playing); otherwise attempt the move with promotion always "q"; a throwing
chess.move is caught and yields false with no onMove callback; on success the
post-move FEN and applied move are handed to the orchestrator. -/
def onDrop (rules : String → ChessPos) (st : AppState) (src tgt : String) :
    Bool × Option (String × Move) :=
  if st.gameState.isPlayerTurn = true ∧ st.gameState.gameStatus = GameStatus.playing then
    match chessJsMove (rules st.gameState.fen).legalMoves ⟨src, tgt, some "q"⟩ with
    | some mv => (true, some ((rules st.gameState.fen).fenAfter mv, mv))
    | none => (false, none)
  else (false, none)

/-- Resumption of handleMove when the awaited generateMove settles (lines
441-491).  On success the delayed state update loads the AI FEN, merges the
post-AI status over whatever the state is at that moment, and appends the AI
history entry; on error nothing is applied and the API-key modal opens when
the propagated message matches the authentication keywords. -/
def handleCompletion (rules : String → ChessPos) (st : AppState)
    (oracle : ModelResult) (rand : Nat) : AppState :=
  match st.pending with
  | none => st
  | some req =>
    let genRun := generateMove rules req.fen req.history st.apiKey st.modelName
      oracle rand
    match genRun.result with
    | Except.ok aiMove =>
      let part := checkGameStatus (rules aiMove.fen)
      let gs1 := mergeStatus
        { st.gameState with fen := aiMove.fen, isPlayerTurn := true } part
      { st with
        gameState := gs1
        moveHistory := st.moveHistory ++ [aiEntry aiMove]
        isThinking := false
        pending := none }
    | Except.error msg =>
      { st with
        isThinking := false
        isApiKeyModalOpen := if isAuthError msg then true else st.isApiKeyModalOpen
        pending := none }

/-- One firing of the interval set by the timer effect (lines 495-539): only
while playing; the running side's counter is inspected before decrement, and
a counter already at or below zero ends the game in favor of the other side
with reason time, clamping the counter at zero. -/
def tickSt (st : AppState) : AppState :=
  if st.gameState.gameStatus = GameStatus.playing then
    if st.gameState.isPlayerTurn then
      if st.playerTime ≤ 0 then
        { st with
          gameState := { st.gameState with
            gameStatus := GameStatus.ended
            result := some GameResultV.ai
            resultReason := some ResultReason.time }
          playerTime := 0 }
      else { st with playerTime := st.playerTime - 1 }
    else
      if st.aiTime ≤ 0 then
        { st with
          gameState := { st.gameState with
            gameStatus := GameStatus.ended
            result := some GameResultV.player
            resultReason := some ResultReason.time }
          aiTime := 0 }
      else { st with aiTime := st.aiTime - 1 }
  else st

/-- External events driving the orchestrator: the start button, a human
drag-drop, settlement of an outstanding completion request, and a one-second
clock tick. -/
inductive Event
| start
| drop (src tgt : String)
| completion (oracle : ModelResult) (rand : Nat)
| tick

/-- One orchestrator transition. A drop only reaches the move path through
onDrop's acceptance; a completion settles the pending request if any. -/
def step (rules : String → ChessPos) (st : AppState) (e : Event) : AppState :=
  match e with
  | Event.start => startGame st
  | Event.drop src tgt =>
    match (onDrop rules st src tgt).2 with
    | some (newFen, mv) => handleMovePhase1 rules st newFen mv
    | none => st
  | Event.completion oracle rand => handleCompletion rules st oracle rand
  | Event.tick => tickSt st

/-- Event-sequence run. -/
def runEvents (rules : String → ChessPos) (st : AppState) (es : List Event) :
    AppState :=
  es.foldl (step rules) st

/-- Concrete fixture: the king-pawn advance as a verbose move descriptor. -/
def mE2E4 : Move := ⟨"e2", "e4", none, "p", none, "e4"⟩

/-- Concrete fixture: the symmetric black reply. -/
def mE7E5 : Move := ⟨"e7", "e5", none, "p", none, "e5"⟩

/-- Concrete fixture: a quiet (non-terminal, not in check) engine snapshot
with the given FEN, side to move, legal moves, and successor FEN. -/
def quietPos (f : String) (c : Color) (legal : List Move) (nextF : String) :
    ChessPos :=
  ⟨f, c, false, false, false, false, false, false, fun _ => none, legal,
    fun _ => nextF⟩

/-- Concrete fixture rules engine: from the start position the only listed
legal move is e2e4 leading to FEN F1; from F1 black can play e7e5 leading to
F2; every other FEN behaves like the start position. -/
def demoRules : String → ChessPos := fun f =>
  if f = startFen then quietPos startFen Color.w [mE2E4] "F1"
  else if f = "F1" then quietPos "F1" Color.b [mE7E5] "F2"
  else quietPos f Color.w [mE2E4] "F1"

/-- Concrete fixture rules engine with no legal moves anywhere. -/
def emptyRules : String → ChessPos := fun f => quietPos f Color.w [] f

/-- Scenario start: fresh component state with a configured key and model. -/
def st0 : AppState := initialState "sk-test" "gpt-4o"

/-- Scenario: the start button pressed, game playing. -/
def stPlaying : AppState := step demoRules st0 Event.start

/-- Scenario: human plays e2e4; a completion request is now outstanding. -/
def stPending : AppState := step demoRules stPlaying (Event.drop "e2" "e4")

/-- Scenario: the AI clock runs out while the request is outstanding: 600
ticks bring the counter to zero and the 601st ends the game on time. -/
def stEnded : AppState :=
  runEvents demoRules stPending (List.replicate 601 Event.tick)

/-- Scenario: the outstanding completion then arrives with a valid legal
reply after the game has already ended on time. -/
def stLate : AppState :=
  step demoRules stEnded
    (Event.completion (ModelResult.response ⟨⟨"e7", "e5", none⟩, "central reply"⟩) 0)

/-- Scenario: the outstanding completion fails with an authentication-class
transport error. -/
def stAuth : AppState :=
  step demoRules stPending
    (Event.completion (ModelResult.failure "Request failed with status code 401") 0)

/-- Scenario: the player's clock ticks 600 times from the start of the game,
bringing the counter to zero. -/
def stZeroClock : AppState :=
  runEvents demoRules stPlaying (List.replicate 600 Event.tick)

/-- Explicit value of the pending-request scenario state. -/
def pendingVal : AppState :=
  ⟨⟨"F1", false, GameStatus.playing, none, none, false, none⟩, 600, 600, true,
    [humanEntry "F1" mE2E4], "sk-test", "gpt-4o", false, some ⟨"F1", []⟩⟩

/-- Explicit value of the time-expired scenario state. -/
def endedVal : AppState :=
  ⟨⟨"F1", false, GameStatus.ended, some GameResultV.player,
      some ResultReason.time, false, none⟩, 600, 0, true,
    [humanEntry "F1" mE2E4], "sk-test", "gpt-4o", false, some ⟨"F1", []⟩⟩

/-- Explicit value of the state after the late completion is applied. -/
def lateVal : AppState :=
  ⟨⟨"F2", true, GameStatus.playing, some GameResultV.player,
      some ResultReason.time, false, none⟩, 600, 0, false,
    [humanEntry "F1" mE2E4, aiEntry ⟨"F2", mE7E5, "central reply"⟩],
    "sk-test", "gpt-4o", false, none⟩

/-- Concrete fixture: a checkmated snapshot with white to move (white has
been mated), king on e1. -/
def matePos : ChessPos :=
  ⟨"FM", Color.w, true, true, false, false, false, false,
    fun _ => some "e1", [], fun _ => "FM"⟩

/-- A tick with time left on the AI clock only decrements the counter. -/
theorem tick_decrement_ai (st : AppState)
    (hs : st.gameState.gameStatus = GameStatus.playing)
    (hp : st.gameState.isPlayerTurn = false)
    (ht : ¬ st.aiTime ≤ 0) :
    tickSt st = { st with aiTime := st.aiTime - 1 } := by
  unfold tickSt
  rw [if_pos hs]
  simp only [hp, Bool.false_eq_true, if_false]
  rw [if_neg ht]

/-- A tick with time left on the player clock only decrements the counter. -/
theorem tick_decrement_player (st : AppState)
    (hs : st.gameState.gameStatus = GameStatus.playing)
    (hp : st.gameState.isPlayerTurn = true)
    (ht : ¬ st.playerTime ≤ 0) :
    tickSt st = { st with playerTime := st.playerTime - 1 } := by
  unfold tickSt
  rw [if_pos hs]
  simp only [hp, if_true]
  rw [if_neg ht]

/-- Ticking the AI clock down from n seconds drains it to zero without any
other change. -/
theorem drain_ai (rules : String → ChessPos) (n : Nat) :
    ∀ st : AppState, st.gameState.gameStatus = GameStatus.playing →
      st.gameState.isPlayerTurn = false → st.aiTime = (n : Int) →
      runEvents rules st (List.replicate n Event.tick) =
        { st with aiTime := 0 } := by
  induction n with
  | zero =>
    intro st hs hp ht
    cases st with
    | mk gs pt a ith mh k mn mo pe =>
      have ha : a = 0 := by simpa using ht
      subst ha
      rfl
  | succ m ih =>
    intro st hs hp ht
    have hpos : ¬ st.aiTime ≤ 0 := by omega
    rw [List.replicate_succ]
    unfold runEvents
    rw [List.foldl_cons]
    have h1 : step rules st Event.tick = { st with aiTime := st.aiTime - 1 } :=
      tick_decrement_ai st hs hp hpos
    rw [h1]
    have h2 := ih { st with aiTime := st.aiTime - 1 } hs hp
      (show st.aiTime - 1 = (m : Int) by omega)
    unfold runEvents at h2
    rw [h2]

/-- Ticking the player clock down from n seconds drains it to zero without
any other change. -/
theorem drain_player (rules : String → ChessPos) (n : Nat) :
    ∀ st : AppState, st.gameState.gameStatus = GameStatus.playing →
      st.gameState.isPlayerTurn = true → st.playerTime = (n : Int) →
      runEvents rules st (List.replicate n Event.tick) =
        { st with playerTime := 0 } := by
  induction n with
  | zero =>
    intro st hs hp ht
    cases st with
    | mk gs pt a ith mh k mn mo pe =>
      have ha : pt = 0 := by simpa using ht
      subst ha
      rfl
  | succ m ih =>
    intro st hs hp ht
    have hpos : ¬ st.playerTime ≤ 0 := by omega
    rw [List.replicate_succ]
    unfold runEvents
    rw [List.foldl_cons]
    have h1 : step rules st Event.tick =
        { st with playerTime := st.playerTime - 1 } :=
      tick_decrement_player st hs hp hpos
    rw [h1]
    have h2 := ih { st with playerTime := st.playerTime - 1 } hs hp
      (show st.playerTime - 1 = (m : Int) by omega)
    unfold runEvents at h2
    rw [h2]

/-- The pending-request scenario state evaluates to its explicit value. -/
theorem stPending_eq : stPending = pendingVal := by decide

/-- The zero-clock scenario state is the playing state with the player's
counter drained. -/
theorem stZeroClock_eq : stZeroClock = { stPlaying with playerTime := 0 } :=
  drain_player demoRules 600 stPlaying (by decide) (by decide) (by decide)

/-- The time-expired scenario state evaluates to its explicit value. -/
theorem stEnded_eq : stEnded = endedVal := by
  show runEvents demoRules stPending (List.replicate 601 Event.tick) = endedVal
  rw [stPending_eq, show (601 : Nat) = 600 + 1 from rfl, List.replicate_succ']
  unfold runEvents
  rw [List.foldl_append]
  have hd := drain_ai demoRules 600 pendingVal (by decide) (by decide) (by decide)
  unfold runEvents at hd
  rw [hd]
  decide

/-- The late-completion scenario state evaluates to its explicit value. -/
theorem stLate_eq : stLate = lateVal := by
  show step demoRules stEnded
      (Event.completion
        (ModelResult.response ⟨⟨"e7", "e5", none⟩, "central reply"⟩) 0) = lateVal
  rw [stEnded_eq]
  decide

/-- Fallback selection returns a member of the legal-move list. -/
theorem fallbackOrThrow_ok_mem (chess : ChessPos) (prompt : PromptData)
    (msg : String) (rand : Nat) (r : GenResult)
    (h : (fallbackOrThrow chess prompt msg rand).result = Except.ok r) :
    r.move ∈ chess.legalMoves := by
  unfold fallbackOrThrow at h
  split at h
  · simp at h
  · split at h
    · rename_i randomMove heq
      simp only [Except.ok.injEq] at h
      subst h
      exact List.get?_mem heq
    · simp at h

/-- C1: for every model-move cycle of generateMove, the move in the returned
result, whether obtained by validating the completion response or by the
fallback path, is a member of the legal-move set computed from the input FEN
immediately before the completion request was composed. -/
theorem generateMove_result_in_legalMoves (rules : String → ChessPos)
    (fen : String) (hist : List ChessMove) (key model : String)
    (oracle : ModelResult) (rand : Nat) (r : GenResult)
    (h : (generateMove rules fen hist key model oracle rand).result = Except.ok r) :
    r.move ∈ (rules fen).legalMoves := by
  unfold generateMove at h
  split at h
  · simp at h
  · split at h
    · simp at h
    · split at h
      · split at h
        · rename_i m heq
          simp only [Except.ok.injEq] at h
          subst h
          exact List.mem_of_find?_eq_some heq
        · exact fallbackOrThrow_ok_mem _ _ _ _ _ h
      · exact fallbackOrThrow_ok_mem _ _ _ _ _ h

/-- C1 witness: with the completion failing outright, the fallback returns
the only legal move, which the theorem places inside the legal-move set. -/
theorem generateMove_result_in_legalMoves_witness :
    (generateMove demoRules startFen [] "sk-test" "gpt-4o"
        (ModelResult.failure "boom") 0).result =
      Except.ok ⟨"F1", mE2E4, "Random move (AI generation failed)"⟩ ∧
    mE2E4 ∈ (demoRules startFen).legalMoves :=
  ⟨by decide,
    generateMove_result_in_legalMoves demoRules startFen [] "sk-test" "gpt-4o"
      (ModelResult.failure "boom") 0
      ⟨"F1", mE2E4, "Random move (AI generation failed)"⟩ (by decide)⟩

/-- C10: for every FEN whose legal-move set is empty, generateMove throws
before composing a completion request and before any fallback, and never
returns a result; with a non-empty API key the thrown error is the
no-legal-moves error (an empty key trips the earlier API-key guard, which
also precedes any request). -/
theorem generateMove_empty_legal_throws (rules : String → ChessPos)
    (fen : String) (hist : List ChessMove) (key model : String)
    (oracle : ModelResult) (rand : Nat)
    (h : (rules fen).legalMoves = []) :
    (generateMove rules fen hist key model oracle rand).request = none ∧
    (∀ r : GenResult,
      (generateMove rules fen hist key model oracle rand).result ≠ Except.ok r) ∧
    (key ≠ "" →
      (generateMove rules fen hist key model oracle rand).result =
        Except.error "No legal moves available") := by
  unfold generateMove
  split
  · rename_i hkey
    exact ⟨rfl, fun r hr => by simp at hr, fun hk => absurd hkey hk⟩
  · simp [if_pos h]

/-- C10 witness: a terminal position fixture with an empty legal-move list. -/
theorem generateMove_empty_legal_throws_witness :
    (emptyRules "X").legalMoves = [] ∧
    (generateMove emptyRules "X" [] "sk-test" "gpt-4o"
        (ModelResult.failure "boom") 0).request = none ∧
    (∀ r : GenResult,
      (generateMove emptyRules "X" [] "sk-test" "gpt-4o"
          (ModelResult.failure "boom") 0).result ≠ Except.ok r) ∧
    ("sk-test" ≠ "" →
      (generateMove emptyRules "X" [] "sk-test" "gpt-4o"
          (ModelResult.failure "boom") 0).result =
        Except.error "No legal moves available") := by
  exact ⟨rfl, generateMove_empty_legal_throws emptyRules "X" [] "sk-test"
    "gpt-4o" (ModelResult.failure "boom") 0 rfl⟩

/-- C2 counterexample: on an authentication-class completion failure the
error is surfaced (the API-key modal opens) but the turn does not resolve:
generateMove rethrows the API-key error instead of falling back, and the
orchestrator applies no move — game state and history are unchanged and it
is still the model's turn. -/
theorem auth_failure_no_fallback_counterexample :
    (generateMove demoRules "F1" [] "sk-test" "gpt-4o"
        (ModelResult.failure "Request failed with status code 401") 0).result =
      Except.error authKeyMsg ∧
    stAuth.gameState = stPending.gameState ∧
    stAuth.moveHistory = stPending.moveHistory ∧
    stAuth.gameState.isPlayerTurn = false ∧
    stAuth.gameState.gameStatus = GameStatus.playing ∧
    stAuth.isApiKeyModalOpen = true ∧
    stAuth.pending = none := by decide

/-- C2 amended: when the completion fails with an authentication-class error
while a request is outstanding, the error is surfaced to the user-facing
layer (the API-key modal opens), but the in-progress model turn does not
resolve by a fallback move: generateMove rethrows the API-key error before
its fallback, and the orchestrator leaves the game state and history
unchanged. -/
theorem auth_failure_surfaced_without_fallback (rules : String → ChessPos)
    (st : AppState) (req : PendingReq) (msg : String) (rand : Nat)
    (hp : st.pending = some req) (hkey : st.apiKey ≠ "")
    (hleg : (rules req.fen).legalMoves ≠ []) (hauth : isAuthError msg = true) :
    (generateMove rules req.fen req.history st.apiKey st.modelName
        (ModelResult.failure msg) rand).result = Except.error authKeyMsg ∧
    (step rules st (Event.completion (ModelResult.failure msg) rand)).gameState
      = st.gameState ∧
    (step rules st (Event.completion (ModelResult.failure msg) rand)).moveHistory
      = st.moveHistory ∧
    (step rules st (Event.completion (ModelResult.failure msg) rand)).isApiKeyModalOpen
      = true ∧
    (step rules st (Event.completion (ModelResult.failure msg) rand)).pending
      = none := by
  have hgen : (generateMove rules req.fen req.history st.apiKey st.modelName
      (ModelResult.failure msg) rand).result = Except.error authKeyMsg := by
    unfold generateMove fallbackOrThrow
    rw [if_neg hkey, if_neg hleg]
    dsimp only
    rw [if_pos hauth]
  have hstep : step rules st (Event.completion (ModelResult.failure msg) rand)
      = { st with
          isThinking := false
          isApiKeyModalOpen := true
          pending := none } := by
    unfold step handleCompletion
    rw [hp]
    simp only [hgen]
    have hA : isAuthError authKeyMsg = true := by decide
    simp [hA]
  exact ⟨hgen, by rw [hstep], by rw [hstep], by rw [hstep], by rw [hstep]⟩

/-- C2 amended witness: the concrete 401 transport failure on the pending
request from the e2e4 scenario. -/
theorem auth_failure_surfaced_without_fallback_witness :
    stPending.pending = some ⟨"F1", []⟩ ∧
    ((generateMove demoRules "F1" [] stPending.apiKey stPending.modelName
        (ModelResult.failure "Request failed with status code 401") 0).result =
      Except.error authKeyMsg ∧
    (step demoRules stPending
      (Event.completion (ModelResult.failure "Request failed with status code 401") 0)).gameState
      = stPending.gameState ∧
    (step demoRules stPending
      (Event.completion (ModelResult.failure "Request failed with status code 401") 0)).moveHistory
      = stPending.moveHistory ∧
    (step demoRules stPending
      (Event.completion (ModelResult.failure "Request failed with status code 401") 0)).isApiKeyModalOpen
      = true ∧
    (step demoRules stPending
      (Event.completion (ModelResult.failure "Request failed with status code 401") 0)).pending
      = none) :=
  ⟨by decide,
    auth_failure_surfaced_without_fallback demoRules stPending ⟨"F1", []⟩
      "Request failed with status code 401" 0 (by decide) (by decide)
      (by decide) (by decide)⟩

/-- C3: a late-arriving completion after the game has ended on time is NOT
discarded: the scenario run shows the ended state (reason time, one history
entry) being mutated back to playing, with the AI's FEN loaded and a new
history entry appended. -/
theorem late_completion_mutates_state :
    stEnded.gameState.gameStatus = GameStatus.ended ∧
    stEnded.gameState.result = some GameResultV.player ∧
    stEnded.gameState.resultReason = some ResultReason.time ∧
    stEnded.moveHistory.length = 1 ∧
    stEnded.pending = some ⟨"F1", []⟩ ∧
    stLate.gameState.gameStatus = GameStatus.playing ∧
    stLate.gameState.fen = "F2" ∧
    stLate.moveHistory.length = 2 := by
  rw [stEnded_eq, stLate_eq]
  decide

/-- C6: the claimed invariant that result is non-null exactly when the game
has ended fails in a reachable state: after the late completion is merged
over the time-expired state, the status is back to playing while result is
still the player win recorded at expiry. -/
theorem late_completion_breaks_result_invariant :
    stLate.gameState.gameStatus = GameStatus.playing ∧
    stLate.gameState.result = some GameResultV.player ∧
    stLate.gameState.resultReason = some ResultReason.time := by
  rw [stLate_eq]
  decide

/-- C4 counterexample: after 600 ticks from the start of the game the
player's counter has reached zero while the status is still playing — the
state does remain playing with a zero counter for one tick. -/
theorem clock_zero_still_playing_counterexample :
    stZeroClock.playerTime = 0 ∧
    stZeroClock.gameState.gameStatus = GameStatus.playing ∧
    stZeroClock.gameState.result = none := by
  rw [stZeroClock_eq]
  decide

/-- C4 amended: expiry is terminal one tick late. The tick that runs while
the running side's counter is already at or below zero sets status ended,
result the other side, resultReason time, and clamps the counter at zero;
the tick that brings the counter to zero leaves the state unchanged except
for the decrement, so the state remains playing with a zero counter for
exactly one tick. -/
theorem clock_expiry_one_tick_late (st : AppState)
    (h : st.gameState.gameStatus = GameStatus.playing) :
    ((if st.gameState.isPlayerTurn then st.playerTime else st.aiTime) ≤ 0 →
      (tickSt st).gameState.gameStatus = GameStatus.ended ∧
      (tickSt st).gameState.result =
        some (if st.gameState.isPlayerTurn then GameResultV.ai
          else GameResultV.player) ∧
      (tickSt st).gameState.resultReason = some ResultReason.time ∧
      (if st.gameState.isPlayerTurn then (tickSt st).playerTime
        else (tickSt st).aiTime) = 0) ∧
    (0 < (if st.gameState.isPlayerTurn then st.playerTime else st.aiTime) →
      (tickSt st).gameState = st.gameState ∧
      (if st.gameState.isPlayerTurn then (tickSt st).playerTime
        else (tickSt st).aiTime) =
        (if st.gameState.isPlayerTurn then st.playerTime else st.aiTime) - 1) := by
  unfold tickSt
  rw [if_pos h]
  by_cases hpt : st.gameState.isPlayerTurn
  · simp only [hpt, if_true]
    constructor
    · intro h2
      rw [if_pos h2]
      exact ⟨rfl, rfl, rfl, rfl⟩
    · intro h2
      rw [if_neg (by omega : ¬ st.playerTime ≤ 0)]
      exact ⟨rfl, rfl⟩
  · simp only [Bool.not_eq_true] at hpt
    simp only [hpt, Bool.false_eq_true, if_false]
    constructor
    · intro h2
      rw [if_pos h2]
      exact ⟨rfl, rfl, rfl, rfl⟩
    · intro h2
      rw [if_neg (by omega : ¬ st.aiTime ≤ 0)]
      exact ⟨rfl, rfl⟩

/-- C4 amended witness: the zero-counter-still-playing state reached after
600 ticks, to which the amended theorem applies. -/
theorem clock_expiry_one_tick_late_witness :
    stZeroClock.gameState.gameStatus = GameStatus.playing ∧
    (((if stZeroClock.gameState.isPlayerTurn then stZeroClock.playerTime
        else stZeroClock.aiTime) ≤ 0 →
      (tickSt stZeroClock).gameState.gameStatus = GameStatus.ended ∧
      (tickSt stZeroClock).gameState.result =
        some (if stZeroClock.gameState.isPlayerTurn then GameResultV.ai
          else GameResultV.player) ∧
      (tickSt stZeroClock).gameState.resultReason = some ResultReason.time ∧
      (if stZeroClock.gameState.isPlayerTurn then (tickSt stZeroClock).playerTime
        else (tickSt stZeroClock).aiTime) = 0) ∧
    (0 < (if stZeroClock.gameState.isPlayerTurn then stZeroClock.playerTime
        else stZeroClock.aiTime) →
      (tickSt stZeroClock).gameState = stZeroClock.gameState ∧
      (if stZeroClock.gameState.isPlayerTurn then (tickSt stZeroClock).playerTime
        else (tickSt stZeroClock).aiTime) =
        (if stZeroClock.gameState.isPlayerTurn then stZeroClock.playerTime
          else stZeroClock.aiTime) - 1)) :=
  ⟨by rw [stZeroClock_eq]; decide, clock_expiry_one_tick_late stZeroClock
    (by rw [stZeroClock_eq]; decide)⟩

/-- C5: after any applied half-move whose resulting position is checkmate,
checkGameStatus, as merged into the game state, sets status ended,
resultReason checkmate, and result to the side that just moved (the opposite
of the side to move in the mated position, with white the human player and
black the model), never to the mated side. -/
theorem checkmate_winner_is_mover (gs : GameState) (pos : ChessPos)
    (h : pos.isCheckmate = true) :
    (mergeStatus gs (checkGameStatus pos)).gameStatus = GameStatus.ended ∧
    (mergeStatus gs (checkGameStatus pos)).resultReason =
      some ResultReason.checkmate ∧
    (mergeStatus gs (checkGameStatus pos)).result =
      some (sideLabel (otherColor pos.turn)) ∧
    (mergeStatus gs (checkGameStatus pos)).result ≠
      some (sideLabel pos.turn) := by
  unfold checkGameStatus
  rw [if_pos h]
  unfold mergeStatus
  cases hc : pos.turn <;> simp [hc, sideLabel, otherColor]

/-- C5 witness: the white-to-move mated fixture, where the result is the AI
(black, the mover) and not the player (white, the side to move). -/
theorem checkmate_winner_is_mover_witness :
    matePos.isCheckmate = true ∧
    ((mergeStatus st0.gameState (checkGameStatus matePos)).gameStatus =
      GameStatus.ended ∧
    (mergeStatus st0.gameState (checkGameStatus matePos)).resultReason =
      some ResultReason.checkmate ∧
    (mergeStatus st0.gameState (checkGameStatus matePos)).result =
      some (sideLabel (otherColor matePos.turn)) ∧
    (mergeStatus st0.gameState (checkGameStatus matePos)).result ≠
      some (sideLabel matePos.turn)) :=
  ⟨rfl, checkmate_winner_is_mover st0.gameState matePos rfl⟩

/-- C7: a human drag-drop proposing a move that matches no legal move of the
current position is rejected: the drop handler returns false and the
orchestrator transition leaves the whole state, history included,
unchanged. -/
theorem illegal_drop_rejected_state_unchanged (rules : String → ChessPos)
    (st : AppState) (src tgt : String)
    (h : chessJsMove (rules st.gameState.fen).legalMoves
      ⟨src, tgt, some "q"⟩ = none) :
    (onDrop rules st src tgt).1 = false ∧
    step rules st (Event.drop src tgt) = st := by
  have hd : onDrop rules st src tgt = (false, none) := by
    unfold onDrop
    split
    · simp only [h]
    · rfl
  exact ⟨by rw [hd], by simp [step, hd]⟩

/-- C7 witness: from the playing start state, the blocked push e2e5 matches
no legal move and is rejected without any state change. -/
theorem illegal_drop_rejected_state_unchanged_witness :
    chessJsMove (demoRules stPlaying.gameState.fen).legalMoves
      ⟨"e2", "e5", some "q"⟩ = none ∧
    ((onDrop demoRules stPlaying "e2" "e5").1 = false ∧
      step demoRules stPlaying (Event.drop "e2" "e5") = stPlaying) :=
  ⟨by decide,
    illegal_drop_rejected_state_unchanged demoRules stPlaying "e2" "e5"
      (by decide)⟩

/-- C9: when the orchestrator requests the model's reply after a human
half-move that does not end the game, the history argument recorded for the
generateMove call is the pre-append history, while the new entry is appended
to the orchestrator's own history; hence the trailing window the prompt will
use draws only on entries present before the human's move. -/
theorem generateMove_receives_pre_move_history (rules : String → ChessPos)
    (st : AppState) (newFen : String) (mv : Move)
    (h : (checkGameStatus (rules newFen)).gameStatus ≠ GameStatus.ended) :
    (handleMovePhase1 rules st newFen mv).pending =
      some ⟨newFen, st.moveHistory⟩ ∧
    (handleMovePhase1 rules st newFen mv).moveHistory =
      st.moveHistory ++ [humanEntry newFen mv] ∧
    ∀ x ∈ lastN 7 st.moveHistory, x ∈ st.moveHistory := by
  have hm : handleMovePhase1 rules st newFen mv = { st with
      gameState := mergeStatus
        { st.gameState with fen := newFen, isPlayerTurn := false }
        (checkGameStatus (rules newFen))
      moveHistory := st.moveHistory ++ [humanEntry newFen mv]
      isThinking := true
      pending := some ⟨newFen, st.moveHistory⟩ } := by
    simp only [handleMovePhase1]
    rw [if_neg h]
  rw [hm]
  refine ⟨rfl, rfl, fun x hx => ?_⟩
  unfold lastN at hx
  exact List.mem_of_mem_drop hx

/-- C9 witness: the e2e4 half-move from the playing start state; the recorded
call carries the empty pre-move history while the orchestrator history gains
the new entry. -/
theorem generateMove_receives_pre_move_history_witness :
    (checkGameStatus (demoRules "F1")).gameStatus ≠ GameStatus.ended ∧
    ((handleMovePhase1 demoRules stPlaying "F1" mE2E4).pending =
      some ⟨"F1", stPlaying.moveHistory⟩ ∧
    (handleMovePhase1 demoRules stPlaying "F1" mE2E4).moveHistory =
      stPlaying.moveHistory ++ [humanEntry "F1" mE2E4] ∧
    ∀ x ∈ lastN 7 stPlaying.moveHistory, x ∈ stPlaying.moveHistory) :=
  ⟨by decide,
    generateMove_receives_pre_move_history demoRules stPlaying "F1" mE2E4
      (by decide)⟩

/-- Any completion request generateMove sends is the composed prompt of its
inputs. -/
theorem generateMove_request_eq (rules : String → ChessPos) (fen : String)
    (hist : List ChessMove) (key model : String) (oracle : ModelResult)
    (rand : Nat) :
    (generateMove rules fen hist key model oracle rand).request = none ∨
    (generateMove rules fen hist key model oracle rand).request =
      some (composePrompt fen hist (rules fen)) := by
  unfold generateMove fallbackOrThrow
  split
  · exact Or.inl rfl
  · split
    · exact Or.inl rfl
    · split
      · split
        · exact Or.inr rfl
        · split
          · exact Or.inr rfl
          · split <;> exact Or.inr rfl
      · split
        · exact Or.inr rfl
        · split <;> exact Or.inr rfl

/-- Counting with a conjoined predicate never exceeds counting with the
first conjunct alone. -/
theorem length_filter_and_le (r : List ChessMove) (pA pB : ChessMove → Bool) :
    (r.filter (fun m => pA m && pB m)).length ≤ (r.filter pA).length := by
  induction r with
  | nil => simp
  | cons x xs ih =>
    by_cases hA : pA x <;> by_cases hB : pB x <;>
      simp [List.filter_cons, hA, hB] <;> omega

/-- C8: the prompt's opponent-tendency commentary counts piece kinds among
the human's moves in the trailing window, each kind triggering at a threshold
of two, with tie-break priority pawn, then knight, then bishop, then the
generic piece-development label. -/
theorem prompt_tendency_thresholds (rules : String → ChessPos) (fen : String)
    (hist : List ChessMove) (key model : String) (oracle : ModelResult)
    (rand : Nat) (p : PromptData)
    (h : (generateMove rules fen hist key model oracle rand).request = some p) :
    p.tendency = tendencyLine (lastN 7 hist) ∧
    (2 ≤ youPieceCount (lastN 7 hist) "p" →
      tendencyLine (lastN 7 hist) =
        "The human player tends to favor pawn moves") ∧
    (youPieceCount (lastN 7 hist) "p" < 2 →
      2 ≤ youPieceCount (lastN 7 hist) "n" →
      tendencyLine (lastN 7 hist) =
        "The human player tends to favor knight development") ∧
    (youPieceCount (lastN 7 hist) "p" < 2 →
      youPieceCount (lastN 7 hist) "n" < 2 →
      2 ≤ youPieceCount (lastN 7 hist) "b" →
      tendencyLine (lastN 7 hist) =
        "The human player tends to favor bishop development") ∧
    (2 ≤ youCount (lastN 7 hist) →
      youPieceCount (lastN 7 hist) "p" < 2 →
      youPieceCount (lastN 7 hist) "n" < 2 →
      youPieceCount (lastN 7 hist) "b" < 2 →
      tendencyLine (lastN 7 hist) =
        "The human player tends to favor piece development") := by
  have hcnt : ∀ k, youPieceCount (lastN 7 hist) k ≤ youCount (lastN 7 hist) := by
    intro k
    simp only [youPieceCount, youCount]
    exact length_filter_and_le (lastN 7 hist)
      (fun m => m.player == "You") (fun m => m.piece == k)
  have hylen : youCount (lastN 7 hist) ≤ (lastN 7 hist).length := by
    simp only [youCount]
    exact List.length_filter_le _ _
  have hp0 : p = composePrompt fen hist (rules fen) := by
    rcases generateMove_request_eq rules fen hist key model oracle rand with
      h0 | h0
    · rw [h0] at h
      exact absurd h (by simp)
    · rw [h0] at h
      exact (Option.some.inj h).symm
  refine ⟨by rw [hp0]; simp [composePrompt], ?_, ?_, ?_, ?_⟩
  · intro h2
    have hy : 2 ≤ youCount (lastN 7 hist) := le_trans h2 (hcnt "p")
    have hl : 2 ≤ (lastN 7 hist).length := le_trans hy hylen
    unfold tendencyLine
    rw [if_pos hl]
    rw [if_pos (show 2 ≤ ((lastN 7 hist).filter
      (fun m => m.player == "You")).length from hy)]
    rw [if_pos (show 2 ≤ ((lastN 7 hist).filter
      (fun m => m.player == "You" && m.piece == "p")).length from h2)]
    decide
  · intro hpn h2
    have hy : 2 ≤ youCount (lastN 7 hist) := le_trans h2 (hcnt "n")
    have hl : 2 ≤ (lastN 7 hist).length := le_trans hy hylen
    unfold tendencyLine
    rw [if_pos hl]
    rw [if_pos (show 2 ≤ ((lastN 7 hist).filter
      (fun m => m.player == "You")).length from hy)]
    rw [if_neg (show ¬ 2 ≤ ((lastN 7 hist).filter
      (fun m => m.player == "You" && m.piece == "p")).length from
      Nat.not_le.mpr hpn)]
    rw [if_pos (show 2 ≤ ((lastN 7 hist).filter
      (fun m => m.player == "You" && m.piece == "n")).length from h2)]
    decide
  · intro hpn hnn h2
    have hy : 2 ≤ youCount (lastN 7 hist) := le_trans h2 (hcnt "b")
    have hl : 2 ≤ (lastN 7 hist).length := le_trans hy hylen
    unfold tendencyLine
    rw [if_pos hl]
    rw [if_pos (show 2 ≤ ((lastN 7 hist).filter
      (fun m => m.player == "You")).length from hy)]
    rw [if_neg (show ¬ 2 ≤ ((lastN 7 hist).filter
      (fun m => m.player == "You" && m.piece == "p")).length from
      Nat.not_le.mpr hpn)]
    rw [if_neg (show ¬ 2 ≤ ((lastN 7 hist).filter
      (fun m => m.player == "You" && m.piece == "n")).length from
      Nat.not_le.mpr hnn)]
    rw [if_pos (show 2 ≤ ((lastN 7 hist).filter
      (fun m => m.player == "You" && m.piece == "b")).length from h2)]
    decide
  · intro hy hpn hnn hbn
    have hl : 2 ≤ (lastN 7 hist).length := le_trans hy hylen
    unfold tendencyLine
    rw [if_pos hl]
    rw [if_pos (show 2 ≤ ((lastN 7 hist).filter
      (fun m => m.player == "You")).length from hy)]
    rw [if_neg (show ¬ 2 ≤ ((lastN 7 hist).filter
      (fun m => m.player == "You" && m.piece == "p")).length from
      Nat.not_le.mpr hpn)]
    rw [if_neg (show ¬ 2 ≤ ((lastN 7 hist).filter
      (fun m => m.player == "You" && m.piece == "n")).length from
      Nat.not_le.mpr hnn)]
    rw [if_neg (show ¬ 2 ≤ ((lastN 7 hist).filter
      (fun m => m.player == "You" && m.piece == "b")).length from
      Nat.not_le.mpr hbn)]
    decide

/-- C8 witness: a concrete run whose request is the composed prompt. -/
theorem prompt_tendency_thresholds_witness :
    (generateMove demoRules "F1" [] "sk-test" "gpt-4o"
        (ModelResult.failure "boom") 0).request =
      some (composePrompt "F1" [] (demoRules "F1")) ∧
    ((composePrompt "F1" [] (demoRules "F1")).tendency =
      tendencyLine (lastN 7 ([] : List ChessMove)) ∧
    (2 ≤ youPieceCount (lastN 7 ([] : List ChessMove)) "p" →
      tendencyLine (lastN 7 ([] : List ChessMove)) =
        "The human player tends to favor pawn moves") ∧
    (youPieceCount (lastN 7 ([] : List ChessMove)) "p" < 2 →
      2 ≤ youPieceCount (lastN 7 ([] : List ChessMove)) "n" →
      tendencyLine (lastN 7 ([] : List ChessMove)) =
        "The human player tends to favor knight development") ∧
    (youPieceCount (lastN 7 ([] : List ChessMove)) "p" < 2 →
      youPieceCount (lastN 7 ([] : List ChessMove)) "n" < 2 →
      2 ≤ youPieceCount (lastN 7 ([] : List ChessMove)) "b" →
      tendencyLine (lastN 7 ([] : List ChessMove)) =
        "The human player tends to favor bishop development") ∧
    (2 ≤ youCount (lastN 7 ([] : List ChessMove)) →
      youPieceCount (lastN 7 ([] : List ChessMove)) "p" < 2 →
      youPieceCount (lastN 7 ([] : List ChessMove)) "n" < 2 →
      youPieceCount (lastN 7 ([] : List ChessMove)) "b" < 2 →
      tendencyLine (lastN 7 ([] : List ChessMove)) =
        "The human player tends to favor piece development")) :=
  ⟨by decide,
    prompt_tendency_thresholds demoRules "F1" [] "sk-test" "gpt-4o"
      (ModelResult.failure "boom") 0 (composePrompt "F1" [] (demoRules "F1"))
      (by decide)⟩

end ChessLLM
